import Mathlib

/-!
# Verification of the complaint-management service (`src/complaint.go`)

Shallow embedding of the Go HTTP service in `complaint.go`. The MongoDB
database is modelled as explicit state (`DB`): each collection is a list of
documents in insertion order; `FindOne` returns the first document matching
the filter, `InsertOne` appends, and `UpdateOne` with an `_id` filter
rewrites the (unique) first matching document. Non-deterministic inputs of
the handlers — the freshly generated `ObjectID`s (`primitive.NewObjectID`),
the random draw of `rand.Intn(1000000)`, and the success of fallible storage
writes whose error the Go code branches on — are passed as explicit
parameters. Handlers are modelled from the point after the request body has
been JSON-decoded (the decoded struct is the input); the `400` path for a
malformed body is outside the model.
-/

/-- MongoDB `primitive.ObjectID`, identified with its (lower-case)
24-character hex representation. -/
abbrev ObjectID := String

/-- Model of `primitive.ObjectIDFromHex`: succeeds exactly on 24-character hex
strings (either case), producing the canonical lower-case id. -/
def objectIDFromHex (s : String) : Option ObjectID :=
  if s.length = 24 ∧ s.data.all (fun c => c.isDigit || ('a' ≤ c && c ≤ 'f') || ('A' ≤ c && c ≤ 'F')) then
    some (String.mk (s.data.map Char.toLower))
  else
    none

/-- The `User` struct of `complaint.go`. -/
structure User where
  id : ObjectID
  secretCode : String
  name : String
  email : String
  complaints : List ObjectID
  deriving Repr, DecidableEq

/-- The `Complaint` struct of `complaint.go`. -/
structure Complaint where
  id : ObjectID
  title : String
  summary : String
  rating : Int
  resolved : Bool
  userId : ObjectID
  deriving Repr, DecidableEq

/-- The database state: the `users` and `complaints` collections, each a
list of documents in insertion order. -/
structure DB where
  users : List User
  complaints : List Complaint
  deriving Repr, DecidableEq

/-- An HTTP handler outcome: `ok` carries the JSON-encoded success body,
the error cases carry the message written by `http.Error` with status 400,
404 and 500 respectively. -/
inductive Resp (α : Type) where
  | ok : α → Resp α
  | badRequest : String → Resp α
  | notFound : String → Resp α
  | serverError : String → Resp α
  deriving Repr, DecidableEq

/-- Model of `fmt.Sprintf("%06d", n)` for `n < 1000000`: the six decimal digits of
`n`, most significant first, zero-padded. -/
def sprintf06d (n : Nat) : String :=
  String.mk [Nat.digitChar (n / 100000 % 10), Nat.digitChar (n / 10000 % 10),
    Nat.digitChar (n / 1000 % 10), Nat.digitChar (n / 100 % 10),
    Nat.digitChar (n / 10 % 10), Nat.digitChar (n % 10)]

/-- Model of `generateSecretCode`: formats the draw of `rand.Intn(1000000)`
(a value in `[0, 1000000)`, passed explicitly) with `%06d`. -/
def generateSecretCode (r : Fin 1000000) : String :=
  sprintf06d r.val

/-- Model of `db.Collection("users").FindOne(bson.M{"secretcode": c})`:
first user whose `secretCode` equals `c`. -/
def findUserBySecret (db : DB) (c : String) : Option User :=
  db.users.find? (fun u => u.secretCode = c)

/-- Model of `db.Collection("users").FindOne(bson.M{"_id": oid})`:
first user whose id equals `oid`. -/
def findUserById (db : DB) (oid : ObjectID) : Option User :=
  db.users.find? (fun u => u.id = oid)

/-- Model of `db.Collection("complaints").FindOne(bson.M{"_id": oid})`:
first complaint whose id equals `oid`. -/
def findComplaintById (db : DB) (oid : ObjectID) : Option Complaint :=
  db.complaints.find? (fun c => c.id = oid)

/-- Model of `UpdateOne(users, bson.M{"_id": uid}, {"$set": {"complaints": cs}})`:
rewrite the `complaints` field of the first user with id `uid`. -/
def setUserComplaints (uid : ObjectID) (cs : List ObjectID) : List User → List User
  | [] => []
  | u :: rest =>
    if u.id = uid then { u with complaints := cs } :: rest
    else u :: setUserComplaints uid cs rest

/-- Model of `UpdateOne(complaints, bson.M{"_id": oid}, {"$set": {"resolved": b}})`:
rewrite the `resolved` field of the first complaint with id `oid`. -/
def setComplaintResolved (oid : ObjectID) (b : Bool) : List Complaint → List Complaint
  | [] => []
  | c :: rest =>
    if c.id = oid then { c with resolved := b } :: rest
    else c :: setComplaintResolved oid b rest

/-- Model of `loginHandler`: look up the user by exact `secretCode` match;
404 on a miss, otherwise encode the user. Reads only. -/
def loginHandler (secretCode : String) (db : DB) : Resp User :=
  match findUserBySecret db secretCode with
  | some user => Resp.ok user
  | none => Resp.notFound "User not found"

/-- Model of `registerHandler` after a successful body decode. `body` is the decoded
`User` struct, `freshId` the result of `primitive.NewObjectID()`, `r` the
draw of `rand.Intn(1000000)`, `insertOk` whether `InsertOne` succeeds.
Overwrites `ID`, `SecretCode` and `Complaints`, inserts, and returns the
created record. -/
def registerHandler (body : User) (freshId : ObjectID) (r : Fin 1000000)
    (insertOk : Bool) (db : DB) : Resp User × DB :=
  let user := { body with
    id := freshId
    secretCode := generateSecretCode r
    complaints := ([] : List ObjectID) }
  if insertOk then
    (Resp.ok user, { db with users := db.users ++ [user] })
  else
    (Resp.serverError "insert failed", db)

/-- Model of `submitComplaintHandler` after a successful body decode. Overwrites
`ID` and `Resolved`, inserts the complaint (500 on failure), then
best-effort: find the owning user and, if found, append the complaint id
to its list and write it back (`updOk` is the write's success; its error
is ignored). The created complaint is returned in every case after the
insert succeeds. -/
def submitComplaintHandler (body : Complaint) (freshId : ObjectID)
    (insertOk updOk : Bool) (db : DB) : Resp Complaint × DB :=
  let complaint := { body with id := freshId, resolved := false }
  if insertOk then
    let db1 := { db with complaints := db.complaints ++ [complaint] }
    match findUserById db1 complaint.userId with
    | some user =>
      let newList := user.complaints ++ [complaint.id]
      let db2 :=
        if updOk then { db1 with users := setUserComplaints user.id newList db1.users }
        else db1
      (Resp.ok complaint, db2)
    | none => (Resp.ok complaint, db1)
  else
    (Resp.serverError "insert failed", db)

/-- Model of `getAllComplaintsForUserHandler`: resolve the user by secret code
(404 on a miss), then return every complaint whose `userId` equals the
user's id (`Find(bson.M{"userid": user.ID})`, insertion order). Reads
only. -/
def getAllComplaintsForUserHandler (secretCode : String) (db : DB) :
    Resp (List Complaint) :=
  match findUserBySecret db secretCode with
  | some user => Resp.ok (db.complaints.filter (fun c => c.userId = user.id))
  | none => Resp.notFound "User not found"

/-- Model of `getAllComplaintsForAdminHandler`: every complaint, unfiltered. -/
def getAllComplaintsForAdminHandler (db : DB) : Resp (List Complaint) :=
  Resp.ok db.complaints

/-- Model of `viewComplaintHandler`: parse `complaintId` (400 on failure, before
any storage access), look the complaint up (404 on a miss), else encode
it. Reads only. -/
def viewComplaintHandler (complaintId : String) (db : DB) : Resp Complaint :=
  match objectIDFromHex complaintId with
  | none => Resp.badRequest "Invalid complaint ID"
  | some oid =>
    match findComplaintById db oid with
    | none => Resp.notFound "Complaint not found"
    | some complaint => Resp.ok complaint

/-- Model of `resolveComplaintHandler`: parse `complaintId` (400), fetch the
complaint (404), set `resolved = true` on the in-memory copy, persist the
single-field update (`updOk` its success, 500 on failure), and return the
in-memory copy. -/
def resolveComplaintHandler (complaintId : String) (updOk : Bool) (db : DB) :
    Resp Complaint × DB :=
  match objectIDFromHex complaintId with
  | none => (Resp.badRequest "Invalid complaint ID", db)
  | some oid =>
    match findComplaintById db oid with
    | none => (Resp.notFound "Complaint not found", db)
    | some complaint =>
      let complaint' := { complaint with resolved := true }
      if updOk then
        (Resp.ok complaint',
          { db with complaints := setComplaintResolved oid complaint'.resolved db.complaints })
      else
        (Resp.serverError "update failed", db)

/-- One service request, with its non-deterministic inputs made explicit.
Used to quantify over every exposed operation of the service. -/
inductive Op where
  | login (secretCode : String)
  | register (body : User) (freshId : ObjectID) (r : Fin 1000000) (insertOk : Bool)
  | submit (body : Complaint) (freshId : ObjectID) (insertOk updOk : Bool)
  | listForUser (secretCode : String)
  | listAll
  | view (complaintId : String)
  | resolve (complaintId : String) (updOk : Bool)

/-- The database state after one request is handled. -/
def applyOp (db : DB) : Op → DB
  | Op.login _ => db
  | Op.register body freshId r insertOk => (registerHandler body freshId r insertOk db).2
  | Op.submit body freshId insertOk updOk =>
      (submitComplaintHandler body freshId insertOk updOk db).2
  | Op.listForUser _ => db
  | Op.listAll => db
  | Op.view _ => db
  | Op.resolve complaintId updOk => (resolveComplaintHandler complaintId updOk db).2

/-- The database state after a sequence of requests. -/
def applyOps (db : DB) (ops : List Op) : DB :=
  ops.foldl applyOp db

/-! ## Helper lemmas -/

/-- The char `Nat.digitChar` yields for a value below 10 is a decimal digit character. -/
lemma digitChar_isDigit {d : Nat} (h : d < 10) : (Nat.digitChar d).isDigit = true := by
  interval_cases d <;> rfl

/-- The secret-code format always produces exactly six characters. -/
lemma sprintf06d_length (n : Nat) : (sprintf06d n).length = 6 := rfl

/-- Every character of the secret-code format is a decimal digit. -/
lemma sprintf06d_digits (n : Nat) : (sprintf06d n).data.all Char.isDigit = true := by
  simp only [sprintf06d, String.data, List.all_cons, List.all_nil, Bool.and_eq_true]
  refine ⟨?_, ?_, ?_, ?_, ?_, ?_, trivial⟩ <;>
    exact digitChar_isDigit (Nat.mod_lt _ (by omega))

/-! ## Claim theorems -/

/-- C1: every registration with a well-formed body and a successful insert
returns a `User` whose `secretCode` is a 6-digit zero-padded decimal string
(the `%06d` rendering of the random draw below 1000000), whose `complaints`
sequence is empty and whose id is the freshly generated identifier; the
very record persisted, secret code included, is the response body. -/
theorem register_creates_valid_user (body : User) (freshId : ObjectID)
    (r : Fin 1000000) (db : DB) :
    ∃ u : User,
      registerHandler body freshId r true db =
        (Resp.ok u, ⟨db.users ++ [u], db.complaints⟩) ∧
      u.secretCode.length = 6 ∧
      u.secretCode.data.all Char.isDigit = true ∧
      u.secretCode = sprintf06d r.val ∧ r.val < 1000000 ∧
      u.complaints = [] ∧
      u.id = freshId := by
  refine ⟨_, rfl, ?_, ?_, rfl, r.isLt, rfl, rfl⟩
  · exact sprintf06d_length r.val
  · exact sprintf06d_digits r.val

/-- C2: once the complaint insert has succeeded, submission returns the
created complaint no matter whether the owning user exists and no matter
whether the back-reference write succeeded (`updOk` arbitrary): the error
of the secondary step is never propagated. -/
theorem submit_returns_complaint_regardless (body : Complaint)
    (freshId : ObjectID) (updOk : Bool) (db : DB) :
    ∃ db' : DB,
      submitComplaintHandler body freshId true updOk db =
        (Resp.ok { body with id := freshId, resolved := false }, db') := by
  unfold submitComplaintHandler
  simp only [if_pos rfl]
  cases h : findUserById ⟨db.users, db.complaints ++ [{ body with id := freshId, resolved := false }]⟩ body.userId with
  | none => exact ⟨_, rfl⟩
  | some user => cases updOk <;> exact ⟨_, rfl⟩

/-- C3: `viewComplaint` returns 400 on an unparsable id (for any database
state: no storage access is involved), 404 when the parsed id matches no
stored complaint, and the stored complaint otherwise. -/
theorem view_error_contract (s : String) (db : DB) :
    (objectIDFromHex s = none →
      viewComplaintHandler s db = Resp.badRequest "Invalid complaint ID") ∧
    (∀ oid, objectIDFromHex s = some oid → findComplaintById db oid = none →
      viewComplaintHandler s db = Resp.notFound "Complaint not found") ∧
    (∀ oid c, objectIDFromHex s = some oid → findComplaintById db oid = some c →
      viewComplaintHandler s db = Resp.ok c) := by
  refine ⟨fun h => ?_, fun oid h1 h2 => ?_, fun oid c h1 h2 => ?_⟩
  · simp [viewComplaintHandler, h]
  · simp [viewComplaintHandler, h1, h2]
  · simp [viewComplaintHandler, h1, h2]

/-- A successful `find?` on the left part survives appending on the right. -/
lemma find?_append_some {α : Type} (p : α → Bool) (l₁ l₂ : List α) (a : α)
    (h : l₁.find? p = some a) : (l₁ ++ l₂).find? p = some a := by
  rw [List.find?_append, h]; rfl

/-- A `find?` on a list headed by an all-miss part finds the first hit. -/
lemma find?_append_cons {α : Type} (p : α → Bool) (l₁ : List α) (u : α)
    (l₂ : List α) (h1 : ∀ v ∈ l₁, p v = false) (h2 : p u = true) :
    (l₁ ++ u :: l₂).find? p = some u := by
  induction l₁ with
  | nil => simpa using List.find?_cons_of_pos l₂ h2
  | cons a t ih =>
    rw [List.cons_append, List.find?_cons_of_neg]
    · exact ih fun v hv => h1 v (List.mem_cons_of_mem a hv)
    · simp [h1 a (List.mem_cons_self a t)]

/-- Updating the complaint list of the user that `find?` locates:
the lookup afterwards sees exactly the updated record. -/
lemma find?_setUserComplaints (uid : ObjectID) (cs : List ObjectID)
    (l : List User) (u : User) (h : l.find? (fun x => x.id = uid) = some u) :
    (setUserComplaints uid cs l).find? (fun x => x.id = uid) =
      some { u with complaints := cs } := by
  induction l with
  | nil => simp at h
  | cons v rest ih =>
    by_cases hv : v.id = uid
    · rw [List.find?_cons_of_pos rest (by simp [hv])] at h
      cases h
      simp only [setUserComplaints, if_pos hv]
      exact List.find?_cons_of_pos rest (by simp [hv])
    · rw [List.find?_cons_of_neg rest (by simp [hv])] at h
      simp only [setUserComplaints, if_neg hv]
      rw [List.find?_cons_of_neg _ (by simp [hv])]
      exact ih h

/-- Setting the `resolved` flag on the complaint that `find?` locates:
the lookup afterwards sees exactly the updated record. -/
lemma find?_setComplaintResolved (oid : ObjectID) (b : Bool)
    (l : List Complaint) (c : Complaint)
    (h : l.find? (fun x => x.id = oid) = some c) :
    (setComplaintResolved oid b l).find? (fun x => x.id = oid) =
      some { c with resolved := b } := by
  induction l with
  | nil => simp at h
  | cons v rest ih =>
    by_cases hv : v.id = oid
    · rw [List.find?_cons_of_pos rest (by simp [hv])] at h
      cases h
      simp only [setComplaintResolved, if_pos hv]
      exact List.find?_cons_of_pos rest (by simp [hv])
    · rw [List.find?_cons_of_neg rest (by simp [hv])] at h
      simp only [setComplaintResolved, if_neg hv]
      rw [List.find?_cons_of_neg _ (by simp [hv])]
      exact ih h

/-- Setting the `resolved` flag of some complaint never disturbs the
lookup of a different id. -/
lemma find?_setComplaintResolved_other (oid oidU : ObjectID) (b : Bool)
    (l : List Complaint) (hne : oid ≠ oidU) :
    (setComplaintResolved oidU b l).find? (fun x => x.id = oid) =
      l.find? (fun x => x.id = oid) := by
  induction l with
  | nil => rfl
  | cons v rest ih =>
    by_cases hv : v.id = oidU
    · have hvo : ¬ v.id = oid := fun e => hne (e ▸ hv ▸ rfl)
      simp only [setComplaintResolved, if_pos hv]
      rw [List.find?_cons_of_neg _ (by simp [hvo]),
        List.find?_cons_of_neg _ (by simp [hvo])]
    · simp only [setComplaintResolved, if_neg hv]
      by_cases hvo : v.id = oid
      · rw [List.find?_cons_of_pos _ (by simp [hvo]),
          List.find?_cons_of_pos _ (by simp [hvo])]
      · rw [List.find?_cons_of_neg _ (by simp [hvo]),
          List.find?_cons_of_neg _ (by simp [hvo])]
        exact ih

/-- C4: when the submitted complaint's `userId` matches an existing user and
both storage writes succeed, the response is the created complaint (whose
id is the fresh identifier) and a subsequent fetch of that user sees its
previous complaint list with the new complaint's identifier appended at
the end. -/
theorem submit_appends_to_user_list (body : Complaint) (freshId : ObjectID)
    (db : DB) (u : User) (h : findUserById db body.userId = some u) :
    (submitComplaintHandler body freshId true true db).1 =
      Resp.ok { body with id := freshId, resolved := false } ∧
    findUserById (submitComplaintHandler body freshId true true db).2 u.id =
      some { u with complaints := u.complaints ++ [freshId] } := by
  have huid : u.id = body.userId := by
    simpa using List.find?_some h
  have h1 : findUserById
      ⟨db.users, db.complaints ++ [{ body with id := freshId, resolved := false }]⟩
      body.userId = some u := h
  unfold submitComplaintHandler
  simp only [if_true, h1]
  refine ⟨trivial, ?_⟩
  show (setUserComplaints u.id (u.complaints ++ [freshId]) db.users).find?
    (fun x => x.id = u.id) = some { u with complaints := u.complaints ++ [freshId] }
  refine find?_setUserComplaints u.id (u.complaints ++ [freshId]) db.users u ?_
  rw [huid]
  exact h

/-- C5: resolving an existing complaint twice in a row with successful
storage writes: both calls return the complaint with `resolved = true`,
the second call does not error, and the stored flag ends up `true`. -/
theorem resolve_idempotent (s : String) (oid : ObjectID) (c : Complaint)
    (db : DB) (hp : objectIDFromHex s = some oid)
    (hf : findComplaintById db oid = some c) :
    ∃ db1 db2 : DB,
      resolveComplaintHandler s true db = (Resp.ok { c with resolved := true }, db1) ∧
      resolveComplaintHandler s true db1 = (Resp.ok { c with resolved := true }, db2) ∧
      findComplaintById db2 oid = some { c with resolved := true } := by
  have hf1 : findComplaintById
      ⟨db.users, setComplaintResolved oid true db.complaints⟩ oid =
      some { c with resolved := true } :=
    find?_setComplaintResolved oid true db.complaints c hf
  refine ⟨⟨db.users, setComplaintResolved oid true db.complaints⟩,
    ⟨db.users, setComplaintResolved oid true
      (setComplaintResolved oid true db.complaints)⟩, ?_, ?_, ?_⟩
  · unfold resolveComplaintHandler
    rw [hp]
    simp only [hf, if_true]
  · unfold resolveComplaintHandler
    rw [hp]
    simp only [hf1, if_true]
  · exact find?_setComplaintResolved oid true
      (setComplaintResolved oid true db.complaints) { c with resolved := true } hf1

/-- C10: `resolveComplaint` performs no write on its error paths: an
unparsable id yields 400 with the database unchanged, a parsed id with no
matching complaint yields 404 with the database unchanged. -/
theorem resolve_no_write_on_error (s : String) (updOk : Bool) (db : DB) :
    (objectIDFromHex s = none →
      resolveComplaintHandler s updOk db = (Resp.badRequest "Invalid complaint ID", db)) ∧
    (∀ oid, objectIDFromHex s = some oid → findComplaintById db oid = none →
      resolveComplaintHandler s updOk db = (Resp.notFound "Complaint not found", db)) := by
  constructor
  · intro h
    unfold resolveComplaintHandler
    rw [h]
  · intro oid h1 h2
    unfold resolveComplaintHandler
    rw [h1]
    simp only [h2]

/-- C7: login is an exact first-match lookup on `secretCode`: 404 when no
stored user carries the code; the registered user itself when it is the
only carrier; and the first carrier in insertion order when several
users share the code. -/
theorem login_lookup_contract (code : String) (db : DB) :
    ((∀ u ∈ db.users, u.secretCode ≠ code) →
      loginHandler code db = Resp.notFound "User not found") ∧
    (∀ u, u ∈ db.users → u.secretCode = code →
      (∀ v ∈ db.users, v.secretCode = code → v = u) →
      loginHandler code db = Resp.ok u) ∧
    (∀ (l₁ : List User) (u : User) (l₂ : List User), db.users = l₁ ++ u :: l₂ →
      (∀ v ∈ l₁, v.secretCode ≠ code) → u.secretCode = code →
      loginHandler code db = Resp.ok u) := by
  refine ⟨fun h => ?_, fun u hu hcode huniq => ?_, fun l₁ u l₂ hsplit hmiss hcode => ?_⟩
  · have : findUserBySecret db code = none := by
      unfold findUserBySecret
      rw [List.find?_eq_none]
      intro x hx
      simp [h x hx]
    unfold loginHandler
    rw [this]
  · cases hf : findUserBySecret db code with
    | none =>
      unfold findUserBySecret at hf
      rw [List.find?_eq_none] at hf
      exact absurd (by simp [hcode]) (hf u hu)
    | some v =>
      have hv : v.secretCode = code := by simpa using List.find?_some hf
      have hvmem : v ∈ db.users := List.mem_of_find?_eq_some hf
      have : v = u := huniq v hvmem hv
      unfold loginHandler
      rw [hf, this]
  · have : findUserBySecret db code = some u := by
      unfold findUserBySecret
      rw [hsplit]
      exact find?_append_cons _ l₁ u l₂ (fun v hv => by simp [hmiss v hv]) (by simp [hcode])
    unfold loginHandler
    rw [this]

/-- C8: when the secret code resolves to a stored user, the per-user
listing returns exactly the complaints whose `userId` is that user's id
(sound and complete); when it resolves to no user, 404. -/
theorem listForUser_contract (code : String) (db : DB) :
    (∀ u, findUserBySecret db code = some u →
      ∃ l, getAllComplaintsForUserHandler code db = Resp.ok l ∧
        (∀ c ∈ l, c.userId = u.id) ∧
        (∀ c ∈ db.complaints, c.userId = u.id → c ∈ l)) ∧
    (findUserBySecret db code = none →
      getAllComplaintsForUserHandler code db = Resp.notFound "User not found") := by
  constructor
  · intro u hu
    refine ⟨db.complaints.filter (fun c => c.userId = u.id), ?_, ?_, ?_⟩
    · unfold getAllComplaintsForUserHandler
      rw [hu]
    · intro c hc
      simpa using (List.mem_filter.mp hc).2
    · intro c hc hcu
      exact List.mem_filter.mpr ⟨hc, by simp [hcu]⟩
  · intro h
    unfold getAllComplaintsForUserHandler
    rw [h]

/-- C9: client-supplied values for server-managed fields are ignored: the
user actually stored and returned by registration carries the fresh id,
the generated code and an empty complaint list (only `name` and `email`
come from the body), and the complaint stored and returned by submission
carries the fresh id and `resolved = false` (only `title`, `summary`,
`rating` and `userId` come from the body). -/
theorem server_managed_fields_overwritten :
    (∀ (body : User) (freshId : ObjectID) (r : Fin 1000000) (db : DB),
      registerHandler body freshId r true db =
        (Resp.ok ⟨freshId, generateSecretCode r, body.name, body.email, []⟩,
         ⟨db.users ++ [⟨freshId, generateSecretCode r, body.name, body.email, []⟩],
          db.complaints⟩)) ∧
    (∀ (body : Complaint) (freshId : ObjectID) (updOk : Bool) (db : DB),
      (submitComplaintHandler body freshId true updOk db).1 =
        Resp.ok ⟨freshId, body.title, body.summary, body.rating, false, body.userId⟩ ∧
      ∃ us : List User, (submitComplaintHandler body freshId true updOk db).2 =
        ⟨us, db.complaints ++
          [⟨freshId, body.title, body.summary, body.rating, false, body.userId⟩]⟩) := by
  constructor
  · intro body freshId r db
    rfl
  · intro body freshId updOk db
    unfold submitComplaintHandler
    cases h : findUserById
        ⟨db.users, db.complaints ++ [{ body with id := freshId, resolved := false }]⟩
        body.userId with
    | none => simp only [if_true, h]; exact ⟨trivial, db.users, rfl⟩
    | some user =>
      cases updOk <;> simp only [if_true, Bool.false_eq_true, if_false, h]
      · exact ⟨trivial, db.users, rfl⟩
      · exact ⟨trivial, _, rfl⟩

/-- One service request never reverts a complaint's `resolved` flag from
`true` to `false` (first-match lookup semantics). -/
lemma resolved_mono_step (db : DB) (op : Op) (oid : ObjectID) (c : Complaint)
    (h : findComplaintById db oid = some c) (hc : c.resolved = true) :
    ∃ c', findComplaintById (applyOp db op) oid = some c' ∧ c'.resolved = true := by
  cases op with
  | login code => exact ⟨c, h, hc⟩
  | listForUser code => exact ⟨c, h, hc⟩
  | listAll => exact ⟨c, h, hc⟩
  | view s => exact ⟨c, h, hc⟩
  | register body freshId r insertOk =>
    cases insertOk
    · exact ⟨c, h, hc⟩
    · exact ⟨c, h, hc⟩
  | submit body freshId insertOk updOk =>
    cases insertOk
    · exact ⟨c, h, hc⟩
    · have happ : (db.complaints ++
          [{ body with id := freshId, resolved := false }]).find?
          (fun x => x.id = oid) = some c :=
        find?_append_some _ db.complaints _ c h
      cases hfind : findUserById
          ⟨db.users, db.complaints ++ [{ body with id := freshId, resolved := false }]⟩
          body.userId with
      | none =>
        refine ⟨c, ?_, hc⟩
        simp only [applyOp, submitComplaintHandler, if_true, hfind, findComplaintById]
        exact happ
      | some user =>
        cases updOk <;> refine ⟨c, ?_, hc⟩ <;>
          simp only [applyOp, submitComplaintHandler, if_true, Bool.false_eq_true,
            if_false, hfind, findComplaintById] <;> exact happ
  | resolve s updOk =>
    cases hp : objectIDFromHex s with
    | none =>
      refine ⟨c, ?_, hc⟩
      simp only [applyOp, resolveComplaintHandler, hp]
      exact h
    | some oidR =>
      cases hfind : findComplaintById db oidR with
      | none =>
        refine ⟨c, ?_, hc⟩
        simp only [applyOp, resolveComplaintHandler, hp, hfind]
        exact h
      | some c0 =>
        cases updOk with
        | false =>
          refine ⟨c, ?_, hc⟩
          simp only [applyOp, resolveComplaintHandler, hp, hfind, Bool.false_eq_true,
            if_false]
          exact h
        | true =>
          by_cases heq : oid = oidR
          · subst heq
            refine ⟨{ c with resolved := true }, ?_, rfl⟩
            simp only [applyOp, resolveComplaintHandler, hp, hfind, if_true]
            exact find?_setComplaintResolved oid true db.complaints c h
          · refine ⟨c, ?_, hc⟩
            simp only [applyOp, resolveComplaintHandler, hp, hfind, if_true]
            show (setComplaintResolved oidR true db.complaints).find?
              (fun x => x.id = oid) = some c
            rw [find?_setComplaintResolved_other oid oidR true db.complaints heq]
            exact h

/-- C6: the `resolved` flag is monotonic through the exposed operations:
after any sequence of service requests, a complaint that was stored with
`resolved = true` is still found with `resolved = true` — no request ever
reverts the flag to `false`. -/
theorem resolved_flag_monotonic (db : DB) (ops : List Op) (oid : ObjectID)
    (c : Complaint) (h : findComplaintById db oid = some c)
    (hc : c.resolved = true) :
    ∃ c', findComplaintById (applyOps db ops) oid = some c' ∧
      c'.resolved = true := by
  induction ops generalizing db c with
  | nil => exact ⟨c, h, hc⟩
  | cons op rest ih =>
    obtain ⟨c', h', hc'⟩ := resolved_mono_step db op oid c h hc
    exact ih (applyOp db op) c' h' hc'

/-! ## Concrete sample data for instantiating the theorems -/

/-- A well-formed 24-character hex identifier (used as a complaint id). -/
def hexA : ObjectID := "aaaaaaaaaaaaaaaaaaaaaaaa"

/-- A second well-formed identifier (used as a user id). -/
def hexB : ObjectID := "bbbbbbbbbbbbbbbbbbbbbbbb"

/-- A third well-formed identifier. -/
def hexC : ObjectID := "cccccccccccccccccccccccc"

/-- A sample registered user. -/
def sampleUser : User := ⟨hexB, "123456", "A", "a@x.com", []⟩

/-- A second sample user sharing the secret code of `sampleUser`. -/
def sampleUser2 : User := ⟨hexC, "123456", "B", "b@x.com", []⟩

/-- A sample unresolved complaint owned by `sampleUser`. -/
def sampleComplaint : Complaint := ⟨hexA, "T", "s", 3, false, hexB⟩

/-- A sample resolved complaint with the same identifier. -/
def sampleResolved : Complaint := ⟨hexA, "T", "s", 3, true, hexB⟩

/-! ## Witnesses -/

/-- Witness for C3 at concrete inputs: an unparsable id, a parsable but
unassigned id, and a stored complaint. -/
theorem view_error_contract_witness :
    viewComplaintHandler "xyz" ⟨[], []⟩ = Resp.badRequest "Invalid complaint ID" ∧
    viewComplaintHandler hexA ⟨[], []⟩ = Resp.notFound "Complaint not found" ∧
    viewComplaintHandler hexA ⟨[], [sampleComplaint]⟩ = Resp.ok sampleComplaint :=
  ⟨(view_error_contract "xyz" ⟨[], []⟩).1 (by decide),
   (view_error_contract hexA ⟨[], []⟩).2.1 hexA (by decide) rfl,
   (view_error_contract hexA ⟨[], [sampleComplaint]⟩).2.2 hexA sampleComplaint
     (by decide) (by decide)⟩

/-- Witness for C4: submitting for the existing `sampleUser` appends the
fresh id to its (empty) complaint list. -/
theorem submit_appends_witness :
    (submitComplaintHandler sampleComplaint hexA true true ⟨[sampleUser], []⟩).1 =
      Resp.ok { sampleComplaint with id := hexA, resolved := false } ∧
    findUserById (submitComplaintHandler sampleComplaint hexA true true
        ⟨[sampleUser], []⟩).2 sampleUser.id =
      some { sampleUser with complaints := sampleUser.complaints ++ [hexA] } :=
  submit_appends_to_user_list sampleComplaint hexA ⟨[sampleUser], []⟩ sampleUser
    (by decide)

/-- Witness for C5: resolving the stored `sampleComplaint` twice. -/
theorem resolve_idempotent_witness :
    ∃ db1 db2 : DB,
      resolveComplaintHandler hexA true ⟨[], [sampleComplaint]⟩ =
        (Resp.ok { sampleComplaint with resolved := true }, db1) ∧
      resolveComplaintHandler hexA true db1 =
        (Resp.ok { sampleComplaint with resolved := true }, db2) ∧
      findComplaintById db2 hexA = some { sampleComplaint with resolved := true } :=
  resolve_idempotent hexA hexA sampleComplaint ⟨[], [sampleComplaint]⟩
    (by decide) (by decide)

/-- Witness for C6: a resolved complaint stays resolved across a
submission and a resolution request. -/
theorem resolved_monotonic_witness :
    ∃ c', findComplaintById
        (applyOps ⟨[sampleUser], [sampleResolved]⟩
          [Op.submit sampleComplaint hexC true true, Op.resolve hexA true]) hexA =
      some c' ∧ c'.resolved = true :=
  resolved_flag_monotonic ⟨[sampleUser], [sampleResolved]⟩
    [Op.submit sampleComplaint hexC true true, Op.resolve hexA true]
    hexA sampleResolved (by decide) rfl

/-- Witness for C7: a never-issued code, a uniquely issued code, and a
duplicated code where the first carrier wins. -/
theorem login_lookup_witness :
    loginHandler "000000" ⟨[sampleUser], []⟩ = Resp.notFound "User not found" ∧
    loginHandler "123456" ⟨[sampleUser], []⟩ = Resp.ok sampleUser ∧
    loginHandler "123456" ⟨[sampleUser, sampleUser2], []⟩ = Resp.ok sampleUser :=
  ⟨(login_lookup_contract "000000" ⟨[sampleUser], []⟩).1 (by decide),
   (login_lookup_contract "123456" ⟨[sampleUser], []⟩).2.1 sampleUser
     (by decide) rfl (by decide),
   (login_lookup_contract "123456" ⟨[sampleUser, sampleUser2], []⟩).2.2
     [] sampleUser [sampleUser2] rfl (by decide) rfl⟩

/-- Witness for C8: a resolving code returns exactly the owner's
complaints; a non-resolving code returns 404. -/
theorem listForUser_witness :
    (∃ l, getAllComplaintsForUserHandler "123456" ⟨[sampleUser], [sampleComplaint]⟩ =
        Resp.ok l ∧
      (∀ c ∈ l, c.userId = sampleUser.id) ∧
      (∀ c ∈ [sampleComplaint], c.userId = sampleUser.id → c ∈ l)) ∧
    getAllComplaintsForUserHandler "000000" ⟨[sampleUser], [sampleComplaint]⟩ =
      Resp.notFound "User not found" :=
  ⟨(listForUser_contract "123456" ⟨[sampleUser], [sampleComplaint]⟩).1 sampleUser
     (by decide),
   (listForUser_contract "000000" ⟨[sampleUser], [sampleComplaint]⟩).2 (by decide)⟩

/-- Witness for C10: resolve on an unparsable id and on an unassigned id
leaves the (empty) database untouched. -/
theorem resolve_no_write_witness :
    resolveComplaintHandler "xyz" true ⟨[], []⟩ =
      (Resp.badRequest "Invalid complaint ID", ⟨[], []⟩) ∧
    resolveComplaintHandler hexA false ⟨[], []⟩ =
      (Resp.notFound "Complaint not found", ⟨[], []⟩) :=
  ⟨(resolve_no_write_on_error "xyz" true ⟨[], []⟩).1 (by decide),
   (resolve_no_write_on_error hexA false ⟨[], []⟩).2 hexA (by decide) rfl⟩
